import Mathlib

/-!
Verification of the bmc-shim Redfish façade server.

The Go sources are shallowly embedded:
* a backend (`internal/backend`) is a record of the outcomes its calls
  would produce during one request, with `Option` marking the optional
  capability interfaces (`PowerStateProvider`, `NameProvider`,
  `HealthChecker`);
* the server's mutable maps (`last`, `boot`) are association lists with
  Go map semantics (zero value on a missing key);
* each handler is a pure function from server state and request data to
  an HTTP response, the resulting server state, and the trace of backend
  calls it issued.
-/

namespace BmcShim

/-- Go `strings.HasPrefix`, on the character lists of the strings. -/
def goHasPrefix (s pre : String) : Bool := pre.data.isPrefixOf s.data

/-- Go `strings.HasSuffix`, on the character lists of the strings. -/
def goHasSuffix (s suf : String) : Bool := suf.data.isSuffixOf s.data

/-- Go `strings.TrimPrefix`. -/
def goTrimPrefix (s pre : String) : String :=
  if goHasPrefix s pre then ⟨s.data.drop pre.data.length⟩ else s

/-- Go `strings.TrimSuffix`. -/
def goTrimSuffix (s suf : String) : String :=
  if goHasSuffix s suf then ⟨s.data.take (s.data.length - suf.data.length)⟩ else s

/-- Go `strings.ToLower`, character-wise (the state strings compared are
ASCII). -/
def goToLower (s : String) : String := ⟨s.data.map Char.toLower⟩

/-- Effectful backend invocations issued by the server, recorded as a trace. -/
inductive BackendCall where
  | powerOn
  | powerOff
  deriving DecidableEq, Repr

/-- A backend instance, embedded as the outcomes of the calls the server can
make on it during a request.  `none` on an optional field means the backend
does not implement that optional capability interface. -/
structure Backend where
  powerOnResult : Except String Unit
  powerOffResult : Except String Unit
  currentState : Option (Except String Bool)
  displayName : Option (Except String String)
  ping : Option (Except String Unit)
  deriving Repr

/-- The `noop` backend (`internal/backend/noop.go`): `PowerOn`/`PowerOff`
only log and return `nil`; no optional capability is implemented. -/
def noopBackend : Backend :=
  { powerOnResult := .ok ()
    powerOffResult := .ok ()
    currentState := none
    displayName := none
    ping := none }

/-- The shell-command backend (`internal/backend/command.go`), parameterised
by the outcomes of running the configured on/off commands.  Its `Ping`
always returns `nil`; it implements no other optional capability. -/
def commandBackend (onRes offRes : Except String Unit) : Backend :=
  { powerOnResult := onRes
    powerOffResult := offRes
    currentState := none
    displayName := none
    ping := some (.ok ()) }

/-- `HomeAssistant.fetchState` outcome: either an error, or the pair
(state string, friendly name). -/
abbrev FetchResult := Except String (String × String)

/-- `HomeAssistant.CurrentState` (`internal/backend/homeassistant.go`):
on fetch failure returns the error; otherwise
`strings.ToLower(state) == "on"`. -/
def haCurrentState (fetch : FetchResult) : Except String Bool :=
  match fetch with
  | .error e => .error e
  | .ok (state, _) => .ok (goToLower state == "on")

/-- `HomeAssistant.DisplayName`: returns the friendly name from
`fetchState` together with its error. -/
def haDisplayName (fetch : FetchResult) : Except String String :=
  match fetch with
  | .error e => .error e
  | .ok (_, name) => .ok name

/-- The HomeAssistant (remote-switch) backend, parameterised by the outcomes
of its two service calls and of `fetchState`.  It implements
`PowerStateProvider` and `NameProvider` but not `HealthChecker`. -/
def haBackend (onRes offRes : Except String Unit) (fetch : FetchResult) : Backend :=
  { powerOnResult := onRes
    powerOffResult := offRes
    currentState := some (haCurrentState fetch)
    displayName := some (haDisplayName fetch)
    ping := none }

/-- Per-system boot override block (`server.Boot`).  The Go zero value has
all fields empty. -/
structure Boot where
  target : String
  enabled : String
  mode : String
  deriving DecidableEq, Repr

/-- Go zero value of `Boot`, the result of reading a missing map key. -/
def Boot.zero : Boot := ⟨"", "", ""⟩

/-- Read a Go `map[string]bool` entry: zero value `false` when absent. -/
def lastGet (l : List (String × Bool)) (id : String) : Bool :=
  (l.lookup id).getD false

/-- Write a Go map entry: replace the binding if present, append otherwise. -/
def mapSet {α : Type} (l : List (String × α)) (id : String) (v : α) :
    List (String × α) :=
  match l with
  | [] => [(id, v)]
  | (k, w) :: rest => if k = id then (id, v) :: rest else (k, w) :: mapSet rest id v

/-- Read a Go `map[string]Boot` entry: zero value when absent. -/
def bootGet (l : List (String × Boot)) (id : String) : Boot :=
  (l.lookup id).getD Boot.zero

/-- The server's state: the immutable registry `cfg.Systems` plus the two
lock-guarded mutable maps `last` and `boot`. -/
structure ServerState where
  systems : List (String × Backend)
  last : List (String × Bool)
  boot : List (String × Boot)

/-- `server.New`: both mutable maps start empty. -/
def serverInit (systems : List (String × Backend)) : ServerState :=
  { systems := systems, last := [], boot := [] }

/-- `Server.applyReset`: dispatch on the `ResetType` keyword, issue the
backend calls, and update `last` only after the whole sequence succeeded.
Returns the request outcome, the server state after the call, and the trace
of backend calls issued (in order). -/
def applyReset (st : ServerState) (id : String) (be : Backend)
    (resetType : String) : Except String Unit × ServerState × List BackendCall :=
  if resetType = "On" then
    match be.powerOnResult with
    | .error e => (.error e, st, [.powerOn])
    | .ok _ => (.ok (), { st with last := mapSet st.last id true }, [.powerOn])
  else if resetType = "ForceOff" ∨ resetType = "GracefulShutdown" ∨ resetType = "Off" then
    match be.powerOffResult with
    | .error e => (.error e, st, [.powerOff])
    | .ok _ => (.ok (), { st with last := mapSet st.last id false }, [.powerOff])
  else if resetType = "ForceRestart" ∨ resetType = "GracefulRestart" then
    match be.powerOffResult with
    | .error e => (.error e, st, [.powerOff])
    | .ok _ =>
      -- time.Sleep(2 * time.Second) has no effect on the state
      match be.powerOnResult with
      | .error e => (.error e, st, [.powerOff, .powerOn])
      | .ok _ => (.ok (), { st with last := mapSet st.last id true },
                  [.powerOff, .powerOn])
  else
    (.error "unsupported ResetType", st, [])

/-- The set of `ResetType` keywords `applyReset` dispatches on (the
labels of its non-default cases). -/
def acceptedResetTypes : List String :=
  ["On", "ForceOff", "GracefulShutdown", "Off", "ForceRestart", "GracefulRestart"]

/-- The `ResetType@Redfish.AllowableValues` list rendered in the system
document. -/
def advertisedResetValues : List String :=
  ["On", "ForceOff", "GracefulShutdown", "ForceRestart"]

/-- The fields of the rendered single-system JSON document that depend on
the server's state. -/
structure SystemDoc where
  id : String
  name : String
  powerState : String
  bootTarget : String
  bootEnabled : String
  resetAllowable : List String
  deriving DecidableEq, Repr

/-- An HTTP response from the system handlers, abstracted to its status
code and state-dependent content. -/
inductive HttpResponse where
  | notFound
  | methodNotAllowed
  | badRequest (msg : String)
  | okSystem (doc : SystemDoc)
  | okReset
  deriving DecidableEq, Repr

/-- The status code a response is written with. -/
def HttpResponse.status : HttpResponse → Nat
  | .notFound => 404
  | .methodNotAllowed => 405
  | .badRequest _ => 400
  | .okSystem _ => 200
  | .okReset => 200

/-- The `GET /redfish/v1/Systems/{id}` body of `handleSystem`, after the id
has been extracted from the path: registry lookup, power-state
reconciliation, name resolution, boot lookup with response-only defaults,
and document rendering.  Returns the response and the (unchanged) state. -/
def handleSystemGet (st : ServerState) (id : String) :
    HttpResponse × ServerState :=
  match st.systems.lookup id with
  | none => (.notFound, st)
  | some be =>
    -- Prefer backend-reported state when available
    let isOn : Bool :=
      match be.currentState with
      | some (.ok v) => v
      | some (.error _) => lastGet st.last id
      | none => lastGet st.last id
    let powerState := if isOn then "On" else "Off"
    -- Determine friendly name
    let name : String :=
      match be.displayName with
      | some (.ok n) => if n ≠ "" then n else "System " ++ id
      | some (.error _) => "System " ++ id
      | none => "System " ++ id
    -- Get or initialize Boot info for this system
    let boot0 := bootGet st.boot id
    let boot := if boot0.target = "" then
        { target := "None", enabled := "Disabled", mode := "" }
      else boot0
    (.okSystem
      { id := id, name := name, powerState := powerState,
        bootTarget := boot.target, bootEnabled := boot.enabled,
        resetAllowable := advertisedResetValues }, st)

/-- The `POST .../Actions/ComputerSystem.Reset` body of `handleSystem`,
after the id has been extracted: registry lookup, body decode
(`none` models a JSON decode error, `some rt` a decoded `ResetType`),
then `applyReset`. -/
def handleResetPost (st : ServerState) (id : String) (body : Option String) :
    HttpResponse × ServerState × List BackendCall :=
  match st.systems.lookup id with
  | none => (.notFound, st, [])
  | some be =>
    match body with
    | none => (.badRequest "bad request", st, [])
    | some rt =>
      let r := applyReset st id be rt
      match r.1 with
      | .error e => (.badRequest e, r.2.1, r.2.2)
      | .ok _ => (.okReset, r.2.1, r.2.2)

/-- `Server.handleSystem`: path parsing and method dispatch, then the GET
or reset branch. -/
def handleSystem (st : ServerState) (method urlPath : String)
    (body : Option String) : HttpResponse × ServerState × List BackendCall :=
  let path := goTrimPrefix urlPath "/redfish/v1/Systems/"
  if path = "" then (.notFound, st, [])
  else if goHasSuffix path "/Actions/ComputerSystem.Reset" then
    if method ≠ "POST" then (.methodNotAllowed, st, [])
    else
      let id := goTrimSuffix (goTrimSuffix path "/Actions/ComputerSystem.Reset") "/"
      handleResetPost st id body
  else if method ≠ "GET" then (.methodNotAllowed, st, [])
  else
    let id := goTrimSuffix path "/"
    let r := handleSystemGet st id
    (r.1, r.2, [])

/-- The readiness loop of `handleReadyz`: walk the registry and succeed on
the first backend whose `Ping` succeeds or that does not implement
`HealthChecker`; keep going past a failing `Ping`. -/
def readyzLoop : List (String × Backend) → Bool
  | [] => false
  | (_, be) :: rest =>
    match be.ping with
    | some (.ok _) => true
    | some (.error _) => readyzLoop rest
    | none => true

/-- `Server.handleReadyz` as its status code: 200 on an empty registry,
200 when the loop succeeds, 503 otherwise. -/
def handleReadyz (systems : List (String × Backend)) : Nat :=
  if systems.isEmpty then 200
  else if readyzLoop systems then 200 else 503

/-- Outcome of the authentication middleware: forward to the wrapped
handler, or reject with a status code and a `WWW-Authenticate` challenge
value without forwarding. -/
inductive AuthOutcome where
  | forward
  | reject (status : Nat) (challenge : String)
  deriving DecidableEq, Repr

/-- The paths `authMiddleware` exempts: discovery root (with and without
trailing slash) and the two health endpoints. -/
def authExempt (path : String) : Bool :=
  path = "/redfish/v1/" || path = "/redfish/v1" ||
  path = "/livez" || path = "/readyz"

/-- `Server.authMiddleware`: exempt paths pass through; with both
configured credentials empty everything passes through; otherwise the
presented Basic pair (`none` models `r.BasicAuth()` returning `ok=false`)
must equal the configured pair exactly, else 401 with a challenge. -/
def authMiddleware (username password : String) (path : String)
    (creds : Option (String × String)) : AuthOutcome :=
  if authExempt path then .forward
  else if username = "" ∧ password = "" then .forward
  else
    match creds with
    | none => .reject 401 "Basic realm=redfish"
    | some (usr, pwd) =>
      if usr = username ∧ pwd = password then .forward
      else .reject 401 "Basic realm=redfish"

/-- Observation: the `PowerState` field of a rendered system document,
when the response is one. -/
def respPowerState : HttpResponse → Option String
  | .okSystem doc => some doc.powerState
  | _ => none

/-- Observation: the `BootSourceOverrideTarget`/`BootSourceOverrideEnabled`
pair of a rendered system document, when the response is one. -/
def respBoot : HttpResponse → Option (String × String)
  | .okSystem doc => some (doc.bootTarget, doc.bootEnabled)
  | _ => none

/-- One inbound request to `handleSystem`, for request-sequence
invariants. -/
structure Request where
  method : String
  urlPath : String
  body : Option String

/-- Run a sequence of requests through `handleSystem`, threading the
server state. -/
def runRequests (st : ServerState) : List Request → ServerState
  | [] => st
  | r :: rest => runRequests (handleSystem st r.method r.urlPath r.body).2.1 rest

/-! ### Helper lemmas -/

theorem lookup_mapSet_self {α : Type} (l : List (String × α)) (id : String) (v : α) :
    (mapSet l id v).lookup id = some v := by
  induction l with
  | nil => simp [mapSet]
  | cons p rest ih =>
    obtain ⟨k, w⟩ := p
    by_cases h : k = id
    · subst h
      simp [mapSet, List.lookup]
    · simp only [mapSet, if_neg h, List.lookup]
      have : (id == k) = false := by
        simp [beq_iff_eq]
        exact fun hc => h hc.symm
      simp [this, ih]

theorem lastGet_mapSet_self (l : List (String × Bool)) (id : String) (v : Bool) :
    lastGet (mapSet l id v) id = v := by
  simp [lastGet, lookup_mapSet_self]

theorem applyReset_systems (st : ServerState) (id : String) (be : Backend)
    (rt : String) : (applyReset st id be rt).2.1.systems = st.systems := by
  unfold applyReset
  repeat' split
  all_goals rfl

theorem applyReset_boot (st : ServerState) (id : String) (be : Backend)
    (rt : String) : (applyReset st id be rt).2.1.boot = st.boot := by
  unfold applyReset
  repeat' split
  all_goals rfl

theorem handleSystemGet_state (st : ServerState) (id : String) :
    (handleSystemGet st id).2 = st := by
  unfold handleSystemGet
  split <;> rfl

theorem handleResetPost_boot (st : ServerState) (id : String)
    (body : Option String) : (handleResetPost st id body).2.1.boot = st.boot := by
  unfold handleResetPost
  cases hlook : st.systems.lookup id with
  | none => rfl
  | some be =>
    cases body with
    | none => rfl
    | some rt =>
      have hb := applyReset_boot st id be rt
      simp only []
      split <;> simpa using hb

theorem handleSystem_boot (st : ServerState) (method urlPath : String)
    (body : Option String) : (handleSystem st method urlPath body).2.1.boot = st.boot := by
  simp only [handleSystem]
  split_ifs
  all_goals first
    | rfl
    | exact handleResetPost_boot ..
    | exact congrArg ServerState.boot
        (handleSystemGet_state st (goTrimSuffix (goTrimPrefix urlPath "/redfish/v1/Systems/") "/"))

theorem runRequests_boot (reqs : List Request) (st : ServerState) :
    (runRequests st reqs).boot = st.boot := by
  induction reqs generalizing st with
  | nil => rfl
  | cons r rest ih =>
    simp only [runRequests]
    rw [ih, handleSystem_boot]

theorem readyzLoop_true_iff (sys : List (String × Backend)) :
    readyzLoop sys = true ↔
      ∃ p ∈ sys, p.2.ping = none ∨ p.2.ping = some (.ok ()) := by
  induction sys with
  | nil => simp [readyzLoop]
  | cons q rest ih =>
    obtain ⟨k, be⟩ := q
    cases hp : be.ping with
    | none => simp [readyzLoop, hp]
    | some r =>
      cases r with
      | ok u =>
        cases u
        simp [readyzLoop, hp]
      | error e =>
        simp [readyzLoop, hp, ih]

/-! ### Claim theorems -/

/-- C8: a GET of a single system never modifies the server's mutable state:
the handler returns the state it was given (so a successful live state
query is never written back into `last`, and the default boot configuration
substituted for an unset entry is used for the response only); moreover a
GET request issues no power call.  Cache, boot map and registry are
identical before and after the GET, for every id and path. -/
theorem C8_get_is_pure :
    (∀ st id, (handleSystemGet st id).2 = st) ∧
    (∀ st urlPath body, (handleSystem st "GET" urlPath body).2.1 = st ∧
      (handleSystem st "GET" urlPath body).2.2 = []) := by
  refine ⟨fun st id => handleSystemGet_state st id, fun st urlPath body => ?_⟩
  simp only [handleSystem]
  split_ifs with h1 h2 h3 h4 <;>
    first
      | exact ⟨rfl, rfl⟩
      | exact ⟨handleSystemGet_state .., rfl⟩
      | exact absurd (by decide) h3

/-- C3: a reset request whose decoded `ResetType` is outside
`{On, ForceOff, GracefulShutdown, Off, ForceRestart, GracefulRestart}`
answers 400 with message "unsupported ResetType", issues no backend call
(empty call trace), and leaves the state — in particular the `last`
cache — unchanged, for every registered system. -/
theorem C3_unsupported_reset_type (st : ServerState) (id : String) (rt : String)
    (be : Backend) (hreg : st.systems.lookup id = some be)
    (hrt : rt ∉ acceptedResetTypes) :
    (∀ be2, applyReset st id be2 rt = (.error "unsupported ResetType", st, [])) ∧
    handleResetPost st id (some rt) = (.badRequest "unsupported ResetType", st, []) ∧
    (HttpResponse.badRequest "unsupported ResetType").status = 400 := by
  simp only [acceptedResetTypes, List.mem_cons, List.mem_singleton] at hrt
  push_neg at hrt
  obtain ⟨h1, h2, h3, h4, h5, h6⟩ := hrt
  have happ : ∀ be2, applyReset st id be2 rt = (.error "unsupported ResetType", st, []) := by
    intro be2
    simp [applyReset, h1, h2, h3, h4, h5, h6]
  refine ⟨happ, ?_, rfl⟩
  simp [handleResetPost, hreg, happ be]

/-- C5: the readiness endpoint answers 200 on an empty registry; answers
200 as soon as some registered backend lacks the `HealthChecker`
capability or has a succeeding `Ping`; answers 503 only when every
registered backend implements `HealthChecker` and every `Ping` fails; and
the shell-command backend's `Ping` always succeeds. -/
theorem C5_readiness (sys : List (String × Backend)) :
    (sys = [] → handleReadyz sys = 200) ∧
    (∀ p ∈ sys, (p.2.ping = none ∨ p.2.ping = some (.ok ())) →
      handleReadyz sys = 200) ∧
    (handleReadyz sys = 503 → ∀ p ∈ sys, ∃ e, p.2.ping = some (.error e)) ∧
    (∀ onRes offRes, (commandBackend onRes offRes).ping = some (.ok ())) := by
  refine ⟨?_, ?_, ?_, fun _ _ => rfl⟩
  · rintro rfl
    rfl
  · intro p hp hping
    have hloop : readyzLoop sys = true := (readyzLoop_true_iff sys).2 ⟨p, hp, hping⟩
    have hne : sys ≠ [] := by
      rintro rfl
      exact absurd hp (List.not_mem_nil p)
    simp [handleReadyz, hloop, hne]
  · intro h503 p hp
    have hne : ¬sys.isEmpty := by
      intro he
      rw [List.isEmpty_iff] at he
      subst he
      exact absurd hp (List.not_mem_nil p)
    have hloop : readyzLoop sys ≠ true := by
      intro ht
      simp [handleReadyz, hne, ht] at h503
    cases hping : p.2.ping with
    | none => exact absurd ((readyzLoop_true_iff sys).2 ⟨p, hp, Or.inl hping⟩) hloop
    | some r =>
      cases r with
      | ok u =>
        cases u
        exact absurd ((readyzLoop_true_iff sys).2 ⟨p, hp, Or.inr hping⟩) hloop
      | error e => exact ⟨e, rfl⟩

/-- C6: with a credential pair configured (not both components empty),
any request to a non-exempt path that presents no Basic pair, or a pair
differing from the configured one, is rejected with a 401 and the
`WWW-Authenticate` challenge (and hence is not forwarded); requests to the
exempt paths (discovery root in both spellings, `/livez`, `/readyz`)
always pass through, as do all requests when no credentials are
configured; a matching pair passes through. -/
theorem C6_auth_gate (username password path : String)
    (creds : Option (String × String)) :
    (authExempt path = true → authMiddleware username password path creds = .forward) ∧
    (username = "" ∧ password = "" →
      authMiddleware username password path creds = .forward) ∧
    (¬(username = "" ∧ password = "") → authExempt path = false →
      (creds = none ∨ ∀ cu cp, creds = some (cu, cp) → ¬(cu = username ∧ cp = password)) →
      authMiddleware username password path creds = .reject 401 "Basic realm=redfish") ∧
    (authExempt path = false → ¬(username = "" ∧ password = "") →
      creds = some (username, password) →
      authMiddleware username password path creds = .forward) := by
  refine ⟨?_, ?_, ?_, ?_⟩
  · intro hex
    simp [authMiddleware, hex]
  · intro hcfg
    simp [authMiddleware, hcfg]
  · intro hcfg hex hbad
    cases creds with
    | none => simp [authMiddleware, hex, hcfg]
    | some cp =>
      obtain ⟨cu, cpw⟩ := cp
      have hne : ¬(cu = username ∧ cpw = password) := by
        rcases hbad with h | h
        · exact absurd h (by simp)
        · exact h cu cpw rfl
      simp [authMiddleware, hex, hcfg, hne]
  · intro hex hcfg hcred
    subst hcred
    simp [authMiddleware, hex, hcfg]

/-- C10: the set of `ResetType` keywords `applyReset` dispatches on is a
strict superset of the allowable values advertised in the system
document's reset action descriptor: `Off` and `GracefulRestart` are
accepted — behaving exactly like `ForceOff` and `ForceRestart`
respectively — but never advertised; every accepted keyword issues at
least one backend call, and every other keyword is rejected as
unsupported with no call. -/
theorem C10_accepted_strict_superset (st : ServerState) (id : String) (be : Backend) :
    (∀ rt ∈ advertisedResetValues, rt ∈ acceptedResetTypes) ∧
    ("Off" ∈ acceptedResetTypes ∧ "Off" ∉ advertisedResetValues) ∧
    ("GracefulRestart" ∈ acceptedResetTypes ∧
      "GracefulRestart" ∉ advertisedResetValues) ∧
    (applyReset st id be "Off" = applyReset st id be "ForceOff" ∧
      applyReset st id be "GracefulRestart" = applyReset st id be "ForceRestart") ∧
    (∀ rt ∈ acceptedResetTypes, (applyReset st id be rt).2.2 ≠ []) ∧
    (∀ rt, rt ∉ acceptedResetTypes →
      applyReset st id be rt = (.error "unsupported ResetType", st, [])) := by
  refine ⟨by decide, by decide, by decide, ⟨?_, ?_⟩, ?_, ?_⟩
  · simp [applyReset]
  · simp [applyReset]
  · intro rt hrt
    fin_cases hrt <;>
      · cases h1 : be.powerOnResult <;> cases h2 : be.powerOffResult <;>
          simp [applyReset, h1, h2]
  · intro rt hrt
    simp only [acceptedResetTypes, List.mem_cons, List.mem_singleton] at hrt
    push_neg at hrt
    obtain ⟨h1, h2, h3, h4, h5, h6⟩ := hrt
    simp [applyReset, h1, h2, h3, h4, h5, h6]

/-- C1: for a system whose backend lacks the live state-query capability
(`CurrentState` not implemented, e.g. the noop backend), after a
successful reset with `ResetType` `On` a subsequent GET of the system
reports `PowerState` `On`, and after a successful reset with `Off`,
`ForceOff` or `GracefulShutdown` it reports `Off`. -/
theorem C1_reset_then_get (st : ServerState) (id : String) (be : Backend)
    (hreg : st.systems.lookup id = some be) (hcap : be.currentState = none) :
    ((applyReset st id be "On").1 = .ok () →
      respPowerState (handleSystemGet (applyReset st id be "On").2.1 id).1 =
        some "On") ∧
    (∀ rt, rt = "Off" ∨ rt = "ForceOff" ∨ rt = "GracefulShutdown" →
      (applyReset st id be rt).1 = .ok () →
      respPowerState (handleSystemGet (applyReset st id be rt).2.1 id).1 =
        some "Off") := by
  constructor
  · intro hok
    cases h : be.powerOnResult with
    | error e => simp [applyReset, h] at hok
    | ok u =>
      cases u
      simp [applyReset, h, handleSystemGet, hreg, hcap, lastGet_mapSet_self,
        respPowerState]
  · intro rt hrt hok
    rcases hrt with rfl | rfl | rfl <;>
      · cases h : be.powerOffResult with
        | error e => simp [applyReset, h] at hok
        | ok u =>
          cases u
          simp [applyReset, h, handleSystemGet, hreg, hcap, lastGet_mapSet_self,
            respPowerState]

/-- C2: for the restart actions (`ForceRestart`, `GracefulRestart`): if
both halves of the PowerOff-then-PowerOn sequence succeed, the request
answers ok and the cached last-known state becomes On; if either backend
call fails, the request answers 400 and the whole state — in particular
the cache — is exactly the pre-request state (never an intermediate
value): the cache is written only after the entire sequence succeeds. -/
theorem C2_restart_atomicity (st : ServerState) (id : String) (be : Backend)
    (rt : String) (hreg : st.systems.lookup id = some be)
    (hrt : rt = "ForceRestart" ∨ rt = "GracefulRestart") :
    (be.powerOffResult = .ok () ∧ be.powerOnResult = .ok () →
      handleResetPost st id (some rt) =
        (.okReset, { st with last := mapSet st.last id true },
          [.powerOff, .powerOn]) ∧
      lastGet (mapSet st.last id true) id = true) ∧
    (∀ e, (be.powerOffResult = .error e ∨
        (be.powerOffResult = .ok () ∧ be.powerOnResult = .error e)) →
      (handleResetPost st id (some rt)).1 = .badRequest e ∧
      (HttpResponse.badRequest e).status = 400 ∧
      (handleResetPost st id (some rt)).2.1 = st) := by
  constructor
  · rintro ⟨hoff, hon⟩
    rcases hrt with rfl | rfl <;>
      refine ⟨by simp [handleResetPost, hreg, applyReset, hoff, hon],
        lastGet_mapSet_self ..⟩
  · intro e he
    rcases hrt with rfl | rfl <;>
      rcases he with hoff | ⟨hoff, hon⟩ <;>
        exact ⟨by simp [handleResetPost, hreg, applyReset, hoff, *], rfl,
          by simp [handleResetPost, hreg, applyReset, hoff, *]⟩

/-- C4: when a backend implements the live state-query capability and the
query succeeds, the GET of the system reports `PowerState` `On` exactly
when the query returned true, regardless of the cached value; the
HomeAssistant backend's `CurrentState` on a successful fetch returns
exactly whether the lower-cased state string is `"on"`, so a live state
string equal to `"on"` up to case yields `PowerState` `On` whatever the
cache holds. -/
theorem C4_live_query_authoritative (st : ServerState) (id : String) :
    (∀ be v, st.systems.lookup id = some be →
      be.currentState = some (.ok v) →
      respPowerState (handleSystemGet st id).1 =
        some (if v then "On" else "Off")) ∧
    (∀ s n, haCurrentState (.ok (s, n)) = .ok (goToLower s == "on")) ∧
    (∀ onRes offRes s n,
      st.systems.lookup id = some (haBackend onRes offRes (.ok (s, n))) →
      goToLower s = "on" →
      respPowerState (handleSystemGet st id).1 = some "On") := by
  refine ⟨?_, fun s n => rfl, ?_⟩
  · intro be v hreg hq
    cases v <;> simp [handleSystemGet, hreg, hq, respPowerState]
  · intro onRes offRes s n hreg hs
    have hq : (haBackend onRes offRes (.ok (s, n))).currentState =
        some (.ok true) := by
      simp [haBackend, haCurrentState, hs]
    simp [handleSystemGet, hreg, hq, respPowerState]

/-- C7: for an id absent from the registry, both the single-system GET
and the reset POST answer 404; and a request whose path leaves an empty
id after stripping the Systems collection prefix is answered 404 as
well. -/
theorem C7_unknown_id_not_found (st : ServerState) (id : String)
    (body : Option String) (hreg : st.systems.lookup id = none) :
    (handleSystemGet st id).1 = .notFound ∧
    (handleResetPost st id body).1 = .notFound ∧
    HttpResponse.notFound.status = 404 ∧
    (∀ method b, handleSystem st method "/redfish/v1/Systems/" b =
      (.notFound, st, [])) := by
  refine ⟨?_, ?_, rfl, ?_⟩
  · simp [handleSystemGet, hreg]
  · cases body <;> simp [handleResetPost, hreg]
  · intro method b
    have hp : goTrimPrefix "/redfish/v1/Systems/" "/redfish/v1/Systems/" = "" := by
      decide
    simp [handleSystem, hp]

/-- C9: starting from the freshly constructed server (both mutable maps
empty), no sequence of requests ever writes the boot-configuration map —
`applyReset` touches only `last` — so a GET of any registered system
always reports `BootSourceOverrideTarget` `None` and
`BootSourceOverrideEnabled` `Disabled`. -/
theorem C9_boot_constant (sys : List (String × Backend)) (reqs : List Request)
    (id : String) (be : Backend)
    (hreg : (runRequests (serverInit sys) reqs).systems.lookup id = some be) :
    (runRequests (serverInit sys) reqs).boot = [] ∧
    respBoot (handleSystemGet (runRequests (serverInit sys) reqs) id).1 =
      some ("None", "Disabled") := by
  have hboot : (runRequests (serverInit sys) reqs).boot = [] :=
    runRequests_boot reqs (serverInit sys)
  refine ⟨hboot, ?_⟩
  simp [handleSystemGet, hreg, hboot, bootGet, Boot.zero, respBoot]

/-! ### Witnesses -/

/-- Witness for C1 on the noop backend: reset `On`, then GET shows `On`. -/
theorem C1_reset_then_get_witness :
    respPowerState (handleSystemGet
      (applyReset (serverInit [("1", noopBackend)]) "1" noopBackend "On").2.1 "1").1 =
      some "On" :=
  (C1_reset_then_get (serverInit [("1", noopBackend)]) "1" noopBackend rfl rfl).1 rfl

/-- Witness for C2: a succeeding restart caches `On`; a restart whose
`PowerOff` fails answers 400 and leaves the state untouched. -/
theorem C2_restart_atomicity_witness :
    (handleResetPost (serverInit [("1", noopBackend)]) "1" (some "ForceRestart") =
      (.okReset, { serverInit [("1", noopBackend)] with
        last := mapSet (serverInit [("1", noopBackend)]).last "1" true },
        [.powerOff, .powerOn]) ∧
      lastGet (mapSet (serverInit [("1", noopBackend)]).last "1" true) "1" = true) ∧
    ((handleResetPost
        (serverInit [("1", Backend.mk (.ok ()) (.error "boom") none none none)])
        "1" (some "ForceRestart")).1 = .badRequest "boom" ∧
      (HttpResponse.badRequest "boom").status = 400 ∧
      (handleResetPost
        (serverInit [("1", Backend.mk (.ok ()) (.error "boom") none none none)])
        "1" (some "ForceRestart")).2.1 =
        serverInit [("1", Backend.mk (.ok ()) (.error "boom") none none none)]) :=
  ⟨(C2_restart_atomicity (serverInit [("1", noopBackend)]) "1" noopBackend
      "ForceRestart" rfl (Or.inl rfl)).1 ⟨rfl, rfl⟩,
   (C2_restart_atomicity
      (serverInit [("1", Backend.mk (.ok ()) (.error "boom") none none none)]) "1"
      (Backend.mk (.ok ()) (.error "boom") none none none)
      "ForceRestart" rfl (Or.inl rfl)).2 "boom" (Or.inl rfl)⟩

/-- Witness for C3: `ResetType` `"Reboot"` is answered
"unsupported ResetType" with no state change and no backend call. -/
theorem C3_unsupported_reset_type_witness :
    handleResetPost (serverInit [("1", noopBackend)]) "1" (some "Reboot") =
      (.badRequest "unsupported ResetType", serverInit [("1", noopBackend)], []) :=
  (C3_unsupported_reset_type (serverInit [("1", noopBackend)]) "1" "Reboot"
    noopBackend rfl (by decide)).2.1

/-- Witness for C4: a HomeAssistant backend whose live state fetch
returned `"ON"` renders `PowerState` `On`. -/
theorem C4_live_query_authoritative_witness :
    respPowerState (handleSystemGet
      (serverInit [("1", haBackend (.ok ()) (.ok ()) (.ok ("ON", "svr")))]) "1").1 =
      some "On" :=
  (C4_live_query_authoritative
      (serverInit [("1", haBackend (.ok ()) (.ok ()) (.ok ("ON", "svr")))]) "1").2.2
    (.ok ()) (.ok ()) "ON" "svr" rfl (by decide)

/-- Witness for C5: empty registry is ready; a capability-less backend
makes the service ready; a lone failing health check yields a backend
with a failing `Ping` whenever readiness is 503. -/
theorem C5_readiness_witness :
    handleReadyz ([] : List (String × Backend)) = 200 ∧
    handleReadyz [("1", noopBackend)] = 200 ∧
    (commandBackend (.ok ()) (.ok ())).ping = some (.ok ()) ∧
    (∃ e, (("1", Backend.mk (.ok ()) (.ok ()) none none (some (.error "down"))) :
        String × Backend).2.ping = some (.error e)) :=
  ⟨(C5_readiness []).1 rfl,
   (C5_readiness [("1", noopBackend)]).2.1 ("1", noopBackend) (by simp) (Or.inl rfl),
   (C5_readiness []).2.2.2 (.ok ()) (.ok ()),
   (C5_readiness [("1", Backend.mk (.ok ()) (.ok ()) none none
      (some (.error "down")))]).2.2.1 rfl
     ("1", Backend.mk (.ok ()) (.ok ()) none none (some (.error "down"))) (by simp)⟩

/-- Witness for C6: with credentials `u`/`p`, a non-exempt path without a
Basic pair is rejected 401; `/livez` passes; no configured credentials
pass; the matching pair passes. -/
theorem C6_auth_gate_witness :
    authMiddleware "u" "p" "/redfish/v1/Systems" none =
      .reject 401 "Basic realm=redfish" ∧
    authMiddleware "u" "p" "/livez" none = .forward ∧
    authMiddleware "" "" "/redfish/v1/Systems" none = .forward ∧
    authMiddleware "u" "p" "/redfish/v1/Systems" (some ("u", "p")) = .forward :=
  ⟨(C6_auth_gate "u" "p" "/redfish/v1/Systems" none).2.2.1 (by simp) (by decide)
      (Or.inl rfl),
   (C6_auth_gate "u" "p" "/livez" none).1 (by decide),
   (C6_auth_gate "" "" "/redfish/v1/Systems" none).2.1 ⟨rfl, rfl⟩,
   (C6_auth_gate "u" "p" "/redfish/v1/Systems" (some ("u", "p"))).2.2.2
      (by decide) (by simp) rfl⟩

/-- Witness for C7: id `"2"` is unregistered, GET and reset POST answer
404; the bare collection-prefix path answers 404. -/
theorem C7_unknown_id_not_found_witness :
    (handleSystemGet (serverInit [("1", noopBackend)]) "2").1 = .notFound ∧
    (handleResetPost (serverInit [("1", noopBackend)]) "2" (some "On")).1 =
      .notFound ∧
    handleSystem (serverInit [("1", noopBackend)]) "GET" "/redfish/v1/Systems/" none =
      (.notFound, serverInit [("1", noopBackend)], []) :=
  ⟨(C7_unknown_id_not_found (serverInit [("1", noopBackend)]) "2" (some "On") rfl).1,
   (C7_unknown_id_not_found (serverInit [("1", noopBackend)]) "2" (some "On") rfl).2.1,
   (C7_unknown_id_not_found (serverInit [("1", noopBackend)]) "2" (some "On")
      rfl).2.2.2 "GET" none⟩

/-- Witness for C9: after a reset request, GET still shows the default
boot configuration. -/
theorem C9_boot_constant_witness :
    (runRequests (serverInit [("1", noopBackend)])
      [⟨"POST", "/redfish/v1/Systems/1/Actions/ComputerSystem.Reset", some "On"⟩]).boot =
      [] ∧
    respBoot (handleSystemGet (runRequests (serverInit [("1", noopBackend)])
      [⟨"POST", "/redfish/v1/Systems/1/Actions/ComputerSystem.Reset", some "On"⟩])
      "1").1 = some ("None", "Disabled") :=
  C9_boot_constant [("1", noopBackend)]
    [⟨"POST", "/redfish/v1/Systems/1/Actions/ComputerSystem.Reset", some "On"⟩]
    "1" noopBackend rfl

/-- Witness for C10: `On` is advertised hence accepted and issues a call;
`Off` is accepted though unadvertised; `"Nope"` is rejected unsupported. -/
theorem C10_accepted_strict_superset_witness :
    "On" ∈ acceptedResetTypes ∧
    (applyReset (serverInit []) "1" noopBackend "On").2.2 ≠ [] ∧
    applyReset (serverInit []) "1" noopBackend "Nope" =
      (.error "unsupported ResetType", serverInit [], []) :=
  ⟨(C10_accepted_strict_superset (serverInit []) "1" noopBackend).1 "On" (by decide),
   (C10_accepted_strict_superset (serverInit []) "1" noopBackend).2.2.2.2.1 "On"
      (by decide),
   (C10_accepted_strict_superset (serverInit []) "1" noopBackend).2.2.2.2.2 "Nope"
      (by decide)⟩

end BmcShim
